import Mathlib

/-
Shallow embedding of the SamplerCommands extension (src/index.js).

The extension registers two slash commands, `sampler-get` and `sampler-set`,
which enumerate the visible sampler-parameter controls inside the host's
left navigation panel and read or write the matching control.

Modelling decisions:
  * JavaScript numbers are idealized as `JSNum`: NaN, signed infinity, or an
    exact (unnormalized) rational `JSRat`.  The only arithmetic the source
    performs on numbers is `parseFloat`, `isNaN`, `isFinite`, `Math.min`,
    `Math.max` and `String(...)`, all of which are modelled below.  Double
    rounding/overflow is not modelled (no claim depends on it), and the
    decimal rendering of `String(number)` is modelled in fixed notation.
  * The DOM is modelled as a `DomState`: the navigation panel's style state
    plus the (document-ordered) list of candidate input controls.  Layout
    facts (`offsetWidth`/`offsetHeight`), the `closest('#openai_settings')`
    test, and the title text found by `getTitleParent` (lines 25-51 of
    index.js, pure DOM-ancestry walking) are per-control inputs of the model.
    The offset sizes are the laid-out sizes: the enumerator forces the panel
    to `display: block` for the duration of its query, so the scan always
    observes laid-out dimensions.
  * CSS is modelled with a two-level cascade: an inline style value `""`
    means "unset, fall back to the stylesheet value"; otherwise the inline
    value wins.  `getComputedStyle` resolves this cascade.
  * JavaScript string operations (`trim`, `toLowerCase`, `replace` with a
    string pattern, `parseFloat`) are modelled over `List Char` (ASCII
    behaviour; the source only deals with ASCII identifiers and literals).
  * A thrown `Error` is modelled as a `CmdError` value; the message texts
    are classified by the taxonomy the specification uses
    (InvalidArgument / NotFound / InvalidValue).
  * Command arguments arrive from the host parser and may be absent or
    non-string; `JSArg` models `undefined`, a string, or some other
    (truthy or falsy) value.
-/

/-- An exact rational with an explicit (not necessarily reduced) numerator
and denominator.  `parseFloat` only ever constructs denominators that are
positive powers of ten. -/
structure JSRat where
  num : Int
  den : Nat
deriving DecidableEq, Repr

/-- Rational comparison by cross-multiplication (the order of the values
`num/den` whenever both denominators are positive). -/
def JSRat.leB (a b : JSRat) : Bool :=
  decide (a.num * (b.den : Int) ≤ b.num * (a.den : Int))

/-- An idealized JavaScript number: NaN, a signed infinity, or a finite
exact rational. -/
inductive JSNum where
  | nan : JSNum
  | inf (pos : Bool) : JSNum
  | fin (q : JSRat) : JSNum
deriving DecidableEq, Repr

/-- Model of JavaScript `isNaN`. -/
def JSNum.isNaN : JSNum → Bool
  | .nan => true
  | _ => false

/-- Model of JavaScript `isFinite`. -/
def JSNum.isFinite : JSNum → Bool
  | .fin _ => true
  | _ => false

/-- Model of `Math.max` (two arguments): NaN-propagating maximum. -/
def jsMax : JSNum → JSNum → JSNum
  | .nan, _ => .nan
  | _, .nan => .nan
  | .inf true, _ => .inf true
  | _, .inf true => .inf true
  | .inf false, y => y
  | x, .inf false => x
  | .fin a, .fin b => .fin (if JSRat.leB a b then b else a)

/-- Model of `Math.min` (two arguments): NaN-propagating minimum. -/
def jsMin : JSNum → JSNum → JSNum
  | .nan, _ => .nan
  | _, .nan => .nan
  | .inf false, _ => .inf false
  | _, .inf false => .inf false
  | .inf true, y => y
  | x, .inf true => x
  | .fin a, .fin b => .fin (if JSRat.leB a b then a else b)

/-- Model of JavaScript `String.prototype.toLowerCase` (ASCII). -/
def jsToLower (s : String) : String :=
  String.mk (s.toList.map Char.toLower)

/-- Model of JavaScript `String.prototype.trim` (ASCII whitespace). -/
def jsTrim (s : String) : String :=
  String.mk (((s.toList.dropWhile Char.isWhitespace).reverse.dropWhile
    Char.isWhitespace).reverse)

/-- `startsWithL pat l` holds when `pat` begins the character list `l`. -/
def startsWithL : List Char → List Char → Bool
  | [], _ => true
  | _ :: _, [] => false
  | a :: as, b :: bs => a == b && startsWithL as bs

/-- `occursIn pat l` holds when `pat` occurs as a contiguous sublist of `l`. -/
def occursIn (pat : List Char) : List Char → Bool
  | [] => startsWithL pat []
  | c :: rest => startsWithL pat (c :: rest) || occursIn pat rest

/-- Model of JavaScript `String.prototype.replace` with a string pattern and
the empty replacement: removes the first occurrence of `pat`, anywhere in
the string, and leaves the string unchanged when `pat` does not occur. -/
def removeFirst (pat : List Char) : List Char → List Char
  | [] => []
  | c :: rest =>
    if startsWithL pat (c :: rest) then List.drop pat.length (c :: rest)
    else c :: removeFirst pat rest

/-- The fixed identifier-sanitization tokens of index.js line 63, in the
order the `replace` chain applies them. -/
def sanitizeTokens : List String :=
  ["_counter", "_textgenerationwebui", "_openai", "_novel", "openai_", "oai_"]

/-- Model of `sanitizeId` (index.js line 63): a chain of JavaScript
`replace(tok, '')` calls, each removing the first occurrence of its token. -/
def sanitizeId (id : String) : String :=
  String.mk (sanitizeTokens.foldl (fun l tok => removeFirst tok.toList l) id.toList)

/-- Numeric value of a list of decimal digit characters. -/
def natOfDigits (l : List Char) : Nat :=
  l.foldl (fun a c => a * 10 + (c.toNat - '0'.toNat)) 0

/-- Exponent part of a float literal: at a trailing `e`/`E`, an optional
sign and digits; an `e` not followed by digits is ignored (JavaScript
`parseFloat` backtracks in that case). -/
def expoPart (l : List Char) : Int :=
  if startsWithL ['e'] l || startsWithL ['E'] l then
    let r := l.drop 1
    let eneg := startsWithL ['-'] r
    let r2 := if startsWithL ['-'] r || startsWithL ['+'] r then r.drop 1 else r
    let ed := r2.takeWhile Char.isDigit
    if ed.isEmpty then 0
    else if eneg then -(natOfDigits ed : Int) else (natOfDigits ed : Int)
  else 0

/-- Model of JavaScript `parseFloat`: skip leading whitespace, parse an
optional sign, then either `Infinity` or a decimal mantissa with optional
fraction and exponent; trailing garbage is ignored; if no digits can be
read the result is NaN.  The numeric value is kept exact. -/
def parseFloat (s : String) : JSNum :=
  let l := s.toList.dropWhile Char.isWhitespace
  let neg := startsWithL ['-'] l
  let l1 := if startsWithL ['-'] l || startsWithL ['+'] l then l.drop 1 else l
  if startsWithL "Infinity".toList l1 then .inf (!neg)
  else
    let intDigits := l1.takeWhile Char.isDigit
    let l2 := l1.dropWhile Char.isDigit
    let fracDigits :=
      if startsWithL ['.'] l2 then (l2.drop 1).takeWhile Char.isDigit else []
    let l3 :=
      if startsWithL ['.'] l2 then (l2.drop 1).dropWhile Char.isDigit else l2
    if intDigits.isEmpty && fracDigits.isEmpty then .nan
    else
      let m : Nat := natOfDigits (intDigits ++ fracDigits)
      let e : Int := expoPart l3
      let base : JSRat :=
        if 0 ≤ e then ⟨(m : Int) * (10 : Int) ^ e.toNat, 10 ^ fracDigits.length⟩
        else ⟨(m : Int), 10 ^ fracDigits.length * 10 ^ (-e).toNat⟩
      .fin (if neg then ⟨-base.num, base.den⟩ else base)

/-- Left-pad a digit string with zeros to width `k`. -/
def padZeros (k : Nat) (s : String) : String :=
  String.mk (List.replicate (k - s.length) '0') ++ s

/-- Fixed-notation rendering of `digits / 10^k`. -/
def renderDigits (digits k : Nat) : String :=
  if k = 0 then Nat.repr digits
  else Nat.repr (digits / 10 ^ k) ++ "." ++ padZeros k (Nat.repr (digits % 10 ^ k))

/-- Decimal rendering of a `JSRat` (fixed notation, no trailing zeros):
the least power of ten clearing the denominator is used.  Exponential
notation for extreme magnitudes is not modelled. -/
def jsStrRat (q : JSRat) : String :=
  let sign := if q.num < 0 then "-" else ""
  let m := q.num.natAbs
  match (List.range 65).find? (fun k => (m * 10 ^ k) % q.den == 0) with
  | some k => sign ++ renderDigits ((m * 10 ^ k) / q.den) k
  | none => sign ++ Nat.repr m ++ "/" ++ Nat.repr q.den

/-- Model of JavaScript `String(number)`. -/
def jsStr : JSNum → String
  | .nan => "NaN"
  | .inf true => "Infinity"
  | .inf false => "-Infinity"
  | .fin q => jsStrRat q

/-- Model of JavaScript `String(boolean)`. -/
def boolStr (b : Bool) : String :=
  if b then "true" else "false"

/-- Modelled from the spec: `isTrueBoolean` lives in the host application's
`utils.js`, which is outside this repository; per the spec it recognizes a
fixed vocabulary of truthy tokens and every other string is not truthy. -/
def isTrueBoolean (value : String) : Bool :=
  ["true", "on", "1", "yes"].contains (jsToLower (jsTrim value))

/-- Style state of the navigation panel (`#left-nav-panel`).  Inline values
equal to `""` are unset and fall back to the stylesheet values; a non-empty
inline value wins the cascade. -/
structure Panel where
  inlineDisplay : String
  inlineVisibility : String
  inlineOpacity : String
  sheetDisplay : String
  sheetVisibility : String
  sheetOpacity : String
deriving DecidableEq, Repr

/-- The `display` value observed by `getComputedStyle` on the panel. -/
def computedDisplay (p : Panel) : String :=
  if p.inlineDisplay = "" then p.sheetDisplay else p.inlineDisplay

/-- The `visibility` value observed by `getComputedStyle` on the panel. -/
def computedVisibility (p : Panel) : String :=
  if p.inlineVisibility = "" then p.sheetVisibility else p.inlineVisibility

/-- The `opacity` value observed by `getComputedStyle` on the panel. -/
def computedOpacity (p : Panel) : String :=
  if p.inlineOpacity = "" then p.sheetOpacity else p.inlineOpacity

/-- An `<input>` control inside the navigation panel.  `titleText` is the
`textContent` of the element found by `getTitleParent` (index.js lines
25-51, pure DOM-ancestry walking, abstracted as a per-control input), or
`none` when `getTitleParent` returns null.  `offsetHeight`/`offsetWidth`
are the laid-out sizes (the enumerator forces the panel displayed during
its scan).  `hasDataFor` models the presence of a `data-for` attribute and
`inOpenaiSettings` the `closest('#openai_settings')` test. -/
structure Control where
  id : String
  type : String
  value : String
  minAttr : String
  maxAttr : String
  checked : Bool
  hasDataFor : Bool
  offsetHeight : Nat
  offsetWidth : Nat
  inOpenaiSettings : Bool
  titleText : Option String
deriving DecidableEq, Repr

/-- The DOM state the extension observes and mutates: the panel style and
the document-ordered candidate controls inside the panel. -/
structure DomState where
  panel : Panel
  controls : List Control
deriving DecidableEq, Repr

/-- A sampler parameter as built by `enumerateSamplerParameters` (the
`control` field holds the index of the live control in
`DomState.controls`, modelling the element reference). -/
structure SamplerParameter where
  id : String
  name : String
  max : JSNum
  min : JSNum
  value : JSNum
  checked : Bool
  type : String
  control : Nat
deriving DecidableEq, Repr

/-- Whether a control matches the query selector
`input[type="range"], input[type="checkbox"], input[type="number"]:not([data-for])`. -/
def selectorMatches (c : Control) : Bool :=
  c.type == "range" || c.type == "checkbox" || (c.type == "number" && !c.hasDataFor)

/-- The `isVisible` check of index.js line 64: laid out with non-zero size. -/
def isVisible (c : Control) : Bool :=
  decide (0 < c.offsetHeight) && decide (0 < c.offsetWidth)

/-- The body of the enumeration loop (index.js lines 70-98) for one
control: build the sampler record and discard it when the sanitized id or
the resolved name is falsy (absent or empty).  In the source the record is
built first and then discarded on a falsy `id`/`name`; an absent title
(`name === undefined`) is falsy and is discarded the same way. -/
def samplerOfControl (idx : Nat) (c : Control) : Option SamplerParameter :=
  match c.titleText with
  | none => none
  | some rawTitle =>
    let nm := jsTrim rawTitle
    if sanitizeId c.id = "" ∨ nm = "" then none
    else some
      { id := sanitizeId c.id
        name := nm
        max := parseFloat c.maxAttr
        min := parseFloat c.minAttr
        value := parseFloat c.value
        checked := c.checked
        type := c.type
        control := idx }

/-- The panel-style effect of `enumerateSamplerParameters` (index.js lines
54-61 and 100-102): when the computed display is `none` the panel is
temporarily forced visible for the scan; afterwards the inline visibility
and opacity are cleared and the inline display is set to the display value
that `getComputedStyle` reported at the start. -/
def enumeratePanel (p : Panel) : Panel :=
  let leftPanelDisplay := computedDisplay p
  let p1 :=
    if leftPanelDisplay = "none" then
      { p with inlineOpacity := "0", inlineVisibility := "hidden", inlineDisplay := "block" }
    else p
  { p1 with inlineVisibility := "", inlineOpacity := "", inlineDisplay := leftPanelDisplay }

/-- Model of `enumerateSamplerParameters` (index.js lines 53-105): select
the range/checkbox/plain-number controls, keep the visible ones, skip the
`#openai_settings` section, build the sampler records, discard falsy
ids/names, and apply the panel-style effect. -/
def enumerateSamplerParameters (s : DomState) : List SamplerParameter × DomState :=
  let rangeSliders :=
    (s.controls.enum).filter (fun ic => selectorMatches ic.2 && isVisible ic.2)
  let samplerParameters :=
    rangeSliders.filterMap
      (fun ic => if ic.2.inOpenaiSettings then none else samplerOfControl ic.1 ic.2)
  (samplerParameters, { s with panel := enumeratePanel s.panel })

/-- A slash-command argument as delivered by the host parser: absent,
a string, or some other value (recorded with its truthiness). -/
inductive JSArg where
  | undefined : JSArg
  | str (s : String) : JSArg
  | other (truthy : Bool) : JSArg
deriving DecidableEq, Repr

/-- JavaScript falsiness of an argument (`!x`): `undefined`, the empty
string, and falsy non-string values. -/
def JSArg.falsy : JSArg → Bool
  | .undefined => true
  | .str s => s == ""
  | .other truthy => !truthy

/-- Whether an argument is a string (`typeof x === 'string'`). -/
def JSArg.isString : JSArg → Bool
  | .str _ => true
  | _ => false

/-- Error taxonomy of the specification; each constructor carries the
thrown `Error` message text. -/
inductive CmdError where
  | InvalidArgument (msg : String) : CmdError
  | NotFound (msg : String) : CmdError
  | InvalidValue (msg : String) : CmdError
deriving DecidableEq, Repr

/-- Outcome of a command callback: the returned string, or the thrown
error. -/
inductive CmdOutcome where
  | ok (value : String) : CmdOutcome
  | error (e : CmdError) : CmdOutcome
deriving DecidableEq, Repr

/-- A synthesized DOM event (`new Event('input', \x7b bubbles: true \x7d)`
dispatched on a control, identified by its index). -/
structure DispatchedEvent where
  type : String
  bubbles : Bool
  target : Nat
deriving DecidableEq, Repr

/-- Full result of one command invocation: outcome, resulting DOM state,
and the events dispatched during the call. -/
structure CmdResult where
  result : CmdOutcome
  state : DomState
  events : List DispatchedEvent
deriving DecidableEq, Repr

/-- The normalization `name.trim().toLowerCase()` applied to the input
name by both callbacks. -/
def normalizeName (s : String) : String :=
  jsToLower (jsTrim s)

/-- The parameter lookup both callbacks perform on the enumeration result:
first parameter whose lower-cased name or lower-cased id equals the
normalized input. -/
def lookupParameter (ps : List SamplerParameter) (nm : String) : Option SamplerParameter :=
  ps.find? (fun p => jsToLower p.name == nm || jsToLower p.id == nm)

/-- Write `v` into the `value` property of control `i` (the live-element
write `parameter.control.value = v`). -/
def setControlValue (cs : List Control) (i : Nat) (v : String) : List Control :=
  cs.mapIdx (fun j c => if j = i then { c with value := v } else c)

/-- Write `b` into the `checked` property of control `i` (the live-element
write `parameter.control.checked = b`). -/
def setControlChecked (cs : List Control) (i : Nat) (b : Bool) : List Control :=
  cs.mapIdx (fun j c => if j = i then { c with checked := b } else c)

/-- Model of the `sampler-get` callback (index.js lines 116-129). -/
def samplerGet (s : DomState) (name : JSArg) : CmdResult :=
  if JSArg.falsy name then
    ⟨.error (.InvalidArgument "Parameter name is required."), s, []⟩
  else
    match name with
    | .str nm0 =>
      let nm := normalizeName nm0
      let es := enumerateSamplerParameters s
      match lookupParameter es.1 nm with
      | none => ⟨.error (.NotFound ("Parameter \"" ++ nm ++ "\" not found.")), es.2, []⟩
      | some parameter =>
        ⟨.ok (if parameter.type = "checkbox" then boolStr parameter.checked
              else jsStr parameter.value), es.2, []⟩
    | _ => ⟨.error (.InvalidArgument "Parameter name must be a string."), s, []⟩

/-- Model of the `sampler-set` callback (index.js lines 145-178). -/
def samplerSet (s : DomState) (name value : JSArg) : CmdResult :=
  if JSArg.falsy name then
    ⟨.error (.InvalidArgument "Parameter name is required."), s, []⟩
  else
    match name with
    | .str nm0 =>
      let nm := normalizeName nm0
      let es := enumerateSamplerParameters s
      match lookupParameter es.1 nm with
      | none => ⟨.error (.NotFound ("Parameter \"" ++ nm ++ "\" not found.")), es.2, []⟩
      | some parameter =>
        if JSArg.falsy value then
          ⟨.error (.InvalidArgument "Value is required."), es.2, []⟩
        else
          match value with
          | .str v =>
            if parameter.type = "checkbox" then
              let isTrue := isTrueBoolean v
              ⟨.ok "", { es.2 with controls := setControlChecked es.2.controls parameter.control isTrue },
                [⟨"input", true, parameter.control⟩]⟩
            else
              let number := parseFloat v
              if number.isNaN || !number.isFinite then
                ⟨.error (.InvalidValue "Value must be convertible to a finite number."), es.2, []⟩
              else
                let clamped := jsMin (jsMax number parameter.min) parameter.max
                ⟨.ok "", { es.2 with controls := setControlValue es.2.controls parameter.control (jsStr clamped) },
                  [⟨"input", true, parameter.control⟩]⟩
          | _ => ⟨.error (.InvalidArgument "Value must be a string."), es.2, []⟩
    | _ => ⟨.error (.InvalidArgument "Parameter name must be a string."), s, []⟩

/-- A visible temperature slider: raw id `temp_openai`, bounds 0..2,
current value 1, titled "Temperature". -/
def tempControl : Control :=
  ⟨"temp_openai", "range", "1", "0", "2", false, false, 10, 100, false, some "Temperature"⟩

/-- A visible streaming checkbox, titled " Streaming " (whitespace is
trimmed by the enumerator). -/
def streamControl : Control :=
  ⟨"stream_toggle", "checkbox", "on", "", "", false, false, 10, 100, false, some " Streaming "⟩

/-- A panel hidden by an inline `display: none`, visibility and opacity
unset. -/
def demoPanel : Panel := ⟨"none", "", "", "block", "visible", "1"⟩

/-- A small concrete DOM state with one slider and one checkbox. -/
def demoState : DomState := ⟨demoPanel, [tempControl, streamControl]⟩

/-- The sampler record the enumerator derives from `tempControl`. -/
def tempParam : SamplerParameter :=
  ⟨"temp", "Temperature", .fin ⟨2, 1⟩, .fin ⟨0, 1⟩, .fin ⟨1, 1⟩, false, "range", 0⟩

/-- The sampler record the enumerator derives from `streamControl`. -/
def streamParam : SamplerParameter :=
  ⟨"stream_toggle", "Streaming", .nan, .nan, .nan, false, "checkbox", 1⟩

/-- A panel that is visible, with a non-empty inline opacity. -/
def halfOpaquePanel : Panel := ⟨"", "", "0.5", "flex", "visible", "1"⟩

/-- A DOM state whose panel starts with inline opacity `"0.5"`. -/
def halfOpaqueState : DomState := ⟨halfOpaquePanel, []⟩

/-- A visible number input with no min/max attributes (they read as the
empty string, so `parseFloat` yields NaN for both bounds). -/
def unboundedControl : Control :=
  ⟨"typical_p", "number", "0", "", "", false, false, 5, 5, false, some "Typical P"⟩

/-- A DOM state containing only the unbounded number input. -/
def unboundedState : DomState := ⟨demoPanel, [unboundedControl]⟩

/-- A visible range control whose raw identifier contains uppercase
characters. -/
def upperControl : Control :=
  ⟨"TEMP_openai", "range", "1", "0", "2", false, false, 5, 5, false, some "Upper Temp"⟩

/-- A DOM state containing only the uppercase-id control. -/
def upperState : DomState := ⟨demoPanel, [upperControl]⟩

/-- `endsWithL pat l` holds when `pat` ends the character list `l`. -/
def endsWithL (pat l : List Char) : Bool :=
  startsWithL pat.reverse l.reverse

/-- Strip `tok` from the end of `l` when it stands there (helper for the
spec-worded sanitization). -/
def stripSuffixTok (tok : String) (l : List Char) : List Char :=
  if endsWithL tok.toList l then l.take (l.length - tok.toList.length) else l

/-- Strip `tok` from the front of `l` when it stands there (helper for the
spec-worded sanitization). -/
def stripLeadTok (tok : String) (l : List Char) : List Char :=
  if startsWithL tok.toList l then l.drop tok.toList.length else l

/-- Modelled from the spec: derive the id "by stripping the known suffixes
(`_counter`, `_textgenerationwebui`, `_openai`, `_novel`) and the known
leading prefixes (`openai_`, `oai_`)", preserving all characters outside
those suffix/prefix positions.  This is the claim's reading, used to
compare against `sanitizeId`, which models the source. -/
def sanitizeIdSpec (id : String) : String :=
  String.mk (stripLeadTok "oai_" (stripLeadTok "openai_" (stripSuffixTok "_novel"
    (stripSuffixTok "_openai" (stripSuffixTok "_textgenerationwebui"
      (stripSuffixTok "_counter" id.toList))))))

theorem JSRat.leB_refl (a : JSRat) : JSRat.leB a a = true := by
  simp [JSRat.leB]

theorem JSRat.leB_total (a b : JSRat) : JSRat.leB a b = true ∨ JSRat.leB b a = true := by
  simp only [JSRat.leB, decide_eq_true_eq]
  exact Int.le_total (a.num * (b.den : Int)) (b.num * (a.den : Int))

theorem enumeratePanel_eq (p : Panel) :
    enumeratePanel p =
      { p with inlineVisibility := "", inlineOpacity := "",
               inlineDisplay := computedDisplay p } := by
  unfold enumeratePanel
  by_cases h : computedDisplay p = "none" <;> simp [h]

theorem computedDisplay_enumeratePanel (p : Panel) :
    computedDisplay (enumeratePanel p) = computedDisplay p := by
  rw [enumeratePanel_eq]
  by_cases h2 : p.inlineDisplay = ""
  · by_cases h3 : p.sheetDisplay = "" <;>
      simp [computedDisplay, h2, h3]
  · simp [computedDisplay, h2]

theorem enumeratePanel_id (p : Panel)
    (h1 : p.inlineVisibility = "") (h2 : p.inlineOpacity = "")
    (h3 : p.inlineDisplay = computedDisplay p) :
    enumeratePanel p = p := by
  cases p with
  | mk d vis op sd sv so =>
    simp only at h1 h2 h3
    subst h1; subst h2
    rw [enumeratePanel_eq, ← h3]

theorem enumerate_controls_unchanged (s : DomState) :
    (enumerateSamplerParameters s).2.controls = s.controls := rfl

theorem removeFirst_not_occurs (pat l : List Char) (h : occursIn pat l = false) :
    removeFirst pat l = l := by
  induction l with
  | nil => rfl
  | cons c rest ih =>
    rw [occursIn] at h
    cases hs : startsWithL pat (c :: rest) with
    | true => rw [hs] at h; simp at h
    | false =>
      rw [hs] at h
      simp only [Bool.false_or] at h
      rw [removeFirst, hs]
      simp [ih h]

theorem startsWithL_append (pat : List Char) :
    ∀ l : List Char, startsWithL pat l = true → l = pat ++ List.drop pat.length l := by
  induction pat with
  | nil => intro l _; simp
  | cons a as ih =>
    intro l h
    cases l with
    | nil => simp [startsWithL] at h
    | cons b bs =>
      rw [startsWithL, Bool.and_eq_true, beq_iff_eq] at h
      obtain ⟨rfl, h2⟩ := h
      simpa using ih bs h2

theorem removeFirst_occurs (pat : List Char) :
    ∀ l : List Char, occursIn pat l = true →
      ∃ pre post, l = pre ++ pat ++ post ∧ removeFirst pat l = pre ++ post := by
  intro l
  induction l with
  | nil =>
    intro h
    rw [occursIn] at h
    cases pat with
    | nil => exact ⟨[], [], rfl, rfl⟩
    | cons a as => simp [startsWithL] at h
  | cons c rest ih =>
    intro h
    rw [occursIn] at h
    cases hs : startsWithL pat (c :: rest) with
    | true =>
      refine ⟨[], List.drop pat.length (c :: rest), ?_, ?_⟩
      · simpa using startsWithL_append pat (c :: rest) hs
      · rw [removeFirst, hs]; simp
    | false =>
      rw [hs] at h
      simp only [Bool.false_or] at h
      obtain ⟨pre, post, h1, h2⟩ := ih h
      refine ⟨c :: pre, post, by simp [h1], ?_⟩
      rw [removeFirst, hs]
      simp [h2]

theorem find_q_first {α : Type} (pr : α → Bool) :
    ∀ (l : List α) (x : α), List.find? pr l = some x →
      ∃ i, i < l.length ∧ l.get? i = some x ∧ pr x = true ∧
        ∀ j, j < i → ∀ y, l.get? j = some y → pr y = false := by
  intro l
  induction l with
  | nil => intro x h; simp [List.find?] at h
  | cons a t ih =>
    intro x h
    cases ha : pr a with
    | true =>
      rw [List.find?_cons_of_pos _ ha] at h
      obtain rfl : a = x := by injection h
      exact ⟨0, by simp, by simp, ha, by intro j hj; omega⟩
    | false =>
      rw [List.find?_cons_of_neg _ (by simp [ha])] at h
      obtain ⟨i, hi, hg, hx, hbef⟩ := ih x h
      refine ⟨i + 1, by simpa using hi, by simpa using hg, hx, ?_⟩
      intro j hj y hy
      cases j with
      | zero =>
        simp only [List.get?] at hy
        injection hy with hy
        subst hy
        exact ha
      | succ k =>
        exact hbef k (by omega) y (by simpa using hy)

/-- C6 (amended): the enumerator always preserves the panel's computed
display, and it restores the display/visibility/opacity style state exactly
whenever the panel's inline visibility and opacity start unset and its
inline display equals its computed display (e.g. a panel hidden by an
inline `display: none`).  In general the call clears the inline
visibility/opacity and writes the initially computed display into the
inline display. -/
theorem enumerate_panel_restoration (s : DomState) :
    computedDisplay (enumerateSamplerParameters s).2.panel = computedDisplay s.panel
    ∧ (s.panel.inlineVisibility = "" → s.panel.inlineOpacity = "" →
        s.panel.inlineDisplay = computedDisplay s.panel →
        (enumerateSamplerParameters s).2 = s) := by
  constructor
  · exact computedDisplay_enumeratePanel s.panel
  · intro h1 h2 h3
    show { s with panel := enumeratePanel s.panel } = s
    rw [enumeratePanel_id s.panel h1 h2 h3]

/-- C6 witness: on `demoState` (panel hidden by inline `display: none`,
inline visibility/opacity unset) the enumerator leaves the DOM state
exactly as it was. -/
theorem enumerate_panel_restoration_witness :
    (enumerateSamplerParameters demoState).2 = demoState :=
  (enumerate_panel_restoration demoState).2 (by decide) (by decide) (by decide)

/-- C6 counterexample: when the panel starts visible with inline opacity
`"0.5"`, the enumerator clears the inline opacity (the computed opacity
jumps from `"0.5"` to the stylesheet's `"1"`), so the opacity style state
is not what it was before the call. -/
theorem C6_counterexample :
    halfOpaqueState.panel.inlineOpacity = "0.5"
    ∧ (enumerateSamplerParameters halfOpaqueState).2.panel.inlineOpacity = ""
    ∧ computedOpacity halfOpaqueState.panel = "0.5"
    ∧ computedOpacity (enumerateSamplerParameters halfOpaqueState).2.panel = "1"
    ∧ (enumerateSamplerParameters halfOpaqueState).2 ≠ halfOpaqueState := by decide

/-- C10: in `sampler-set` the lookup (on the fresh enumeration, whose
panel-style effect is visible in the resulting state) happens before the
value argument is validated: a non-empty name that matches no parameter
fails with NotFound for every value argument, including an absent or
non-string one. -/
theorem sampler_set_lookup_precedes_value (s : DomState) (nm0 : String) (v : JSArg)
    (hnm : nm0 ≠ "")
    (hnone : lookupParameter (enumerateSamplerParameters s).1 (normalizeName nm0) = none) :
    samplerSet s (.str nm0) v =
      ⟨.error (.NotFound ("Parameter \"" ++ normalizeName nm0 ++ "\" not found.")),
        (enumerateSamplerParameters s).2, []⟩ := by
  have hfalsy : JSArg.falsy (JSArg.str nm0) = false := by
    simp [JSArg.falsy, hnm]
  simp [samplerSet, hfalsy, hnone]

/-- C10 witness: with no parameter named `zzz`, `sampler-set name=zzz`
with an absent value fails with NotFound, not with the value-required
InvalidArgument. -/
theorem sampler_set_lookup_precedes_value_witness :
    samplerSet demoState (.str "zzz") .undefined =
      ⟨.error (.NotFound ("Parameter \"" ++ normalizeName "zzz" ++ "\" not found.")),
        (enumerateSamplerParameters demoState).2, []⟩ :=
  sampler_set_lookup_precedes_value demoState "zzz" .undefined (by decide) (by decide)

/-- C2: both commands normalize the input name by trimming and
lower-casing, and select the first parameter in enumeration order whose
lower-cased name or lower-cased id equals the normalized input exactly (no
other tie-break: every earlier parameter matches neither); when no
parameter matches, both commands fail with NotFound. -/
theorem lookup_first_match_or_notfound (s : DomState) (nm0 : String) (hnm : nm0 ≠ "") :
    (∀ p, lookupParameter (enumerateSamplerParameters s).1 (normalizeName nm0) = some p →
      ∃ i, i < (enumerateSamplerParameters s).1.length
        ∧ (enumerateSamplerParameters s).1.get? i = some p
        ∧ (jsToLower p.name = normalizeName nm0 ∨ jsToLower p.id = normalizeName nm0)
        ∧ ∀ j, j < i → ∀ q, (enumerateSamplerParameters s).1.get? j = some q →
            ¬(jsToLower q.name = normalizeName nm0 ∨ jsToLower q.id = normalizeName nm0))
    ∧ (lookupParameter (enumerateSamplerParameters s).1 (normalizeName nm0) = none →
        (samplerGet s (.str nm0)).result =
          .error (.NotFound ("Parameter \"" ++ normalizeName nm0 ++ "\" not found."))
        ∧ ∀ v, (samplerSet s (.str nm0) v).result =
          .error (.NotFound ("Parameter \"" ++ normalizeName nm0 ++ "\" not found.")))
    ∧ (∀ p, lookupParameter (enumerateSamplerParameters s).1 (normalizeName nm0) = some p →
        ∃ r, (samplerGet s (.str nm0)).result = .ok r) := by
  have hfalsy : JSArg.falsy (JSArg.str nm0) = false := by
    simp [JSArg.falsy, hnm]
  refine ⟨?_, ?_, ?_⟩
  · intro p hp
    rw [lookupParameter] at hp
    obtain ⟨i, hi, hg, hx, hbef⟩ := find_q_first _ _ _ hp
    refine ⟨i, hi, hg, ?_, ?_⟩
    · simpa using hx
    · intro j hj q hq
      simpa using hbef j hj q hq
  · intro hnone
    constructor
    · simp [samplerGet, hfalsy, hnone]
    · intro v
      simp [samplerSet, hfalsy, hnone]
  · intro p hp
    refine ⟨if p.type = "checkbox" then boolStr p.checked else jsStr p.value, ?_⟩
    simp [samplerGet, hfalsy, hp]

/-- C2 witness: a parameter with raw id `temp_openai` (sanitized to
`temp`) and name `Temperature` is found by the input `TEMP`, and the get
command succeeds on it. -/
theorem lookup_first_match_or_notfound_witness :
    ∃ r, (samplerGet demoState (.str "TEMP")).result = .ok r :=
  (lookup_first_match_or_notfound demoState "TEMP" (by decide)).2.2 tempParam (by decide)

/-- C3: when `sampler-get` finds a parameter, it returns the string form
of the boolean checked state for a checkbox-type parameter and the string
form of the numeric value otherwise (range/number types are the only other
enumerated types), and it leaves every control (values and checked states)
unchanged; no event is dispatched. -/
theorem sampler_get_reads_value (s : DomState) (nm0 : String) (p : SamplerParameter)
    (hnm : nm0 ≠ "")
    (hfind : lookupParameter (enumerateSamplerParameters s).1 (normalizeName nm0) = some p) :
    samplerGet s (.str nm0) =
      ⟨.ok (if p.type = "checkbox" then boolStr p.checked else jsStr p.value),
        (enumerateSamplerParameters s).2, []⟩
    ∧ (samplerGet s (.str nm0)).state.controls = s.controls := by
  have hfalsy : JSArg.falsy (JSArg.str nm0) = false := by
    simp [JSArg.falsy, hnm]
  constructor
  · simp [samplerGet, hfalsy, hfind]
  · simp [samplerGet, hfalsy, hfind, enumerate_controls_unchanged]

/-- C3 witness: `sampler-get` on the checkbox parameter `Streaming`
returns exactly `"false"` and mutates nothing. -/
theorem sampler_get_reads_value_witness :
    samplerGet demoState (.str "streaming") =
      ⟨.ok (if streamParam.type = "checkbox" then boolStr streamParam.checked
            else jsStr streamParam.value),
        (enumerateSamplerParameters demoState).2, []⟩
    ∧ (samplerGet demoState (.str "streaming")).state.controls = demoState.controls :=
  sampler_get_reads_value demoState "streaming" streamParam (by decide) (by decide)

/-- C1 (amended): on a range/number-type parameter, a value string parsing
to a finite number is written back as the string form of
`Math.min(Math.max(number, min), max)` and a bubbling `input` event is
fired on the control; whenever the parameter's min and max are finite
numbers with min ≤ max, that clamped value is a finite number lying within
`[min, max]` inclusive.  (When a bound is NaN — e.g. a number input with
no min/max attributes — the clamped value is NaN instead; see the
counterexample.) -/
theorem sampler_set_range_clamped (s : DomState) (nm0 v : String)
    (p : SamplerParameter) (q : JSRat)
    (hnm : nm0 ≠ "")
    (hfind : lookupParameter (enumerateSamplerParameters s).1 (normalizeName nm0) = some p)
    (htype : p.type ≠ "checkbox")
    (hparse : parseFloat v = .fin q) :
    samplerSet s (.str nm0) (.str v) =
      ⟨.ok "",
        { (enumerateSamplerParameters s).2 with
            controls := setControlValue s.controls p.control
              (jsStr (jsMin (jsMax (.fin q) p.min) p.max)) },
        [⟨"input", true, p.control⟩]⟩
    ∧ ∀ a b : JSRat, p.min = .fin a → p.max = .fin b → JSRat.leB a b = true →
        ∃ r : JSRat, jsMin (jsMax (.fin q) p.min) p.max = .fin r
          ∧ JSRat.leB a r = true ∧ JSRat.leB r b = true := by
  have hfalsy : JSArg.falsy (JSArg.str nm0) = false := by
    simp [JSArg.falsy, hnm]
  have hv : v ≠ "" := by
    intro he
    rw [he] at hparse
    exact JSNum.noConfusion ((by decide : parseFloat "" = JSNum.nan) ▸ hparse)
  have hvf : JSArg.falsy (JSArg.str v) = false := by
    simp [JSArg.falsy, hv]
  constructor
  · simp [samplerSet, hfalsy, hfind, hvf, htype, hparse, JSNum.isNaN, JSNum.isFinite,
      enumerate_controls_unchanged]
  · intro a b ha hb hab
    rw [ha, hb]
    by_cases hqa : JSRat.leB q a = true
    · by_cases hab' : JSRat.leB a b = true
      · exact ⟨a, by simp [jsMax, jsMin, hqa, hab'], JSRat.leB_refl a, hab⟩
      · exact ⟨b, by simp [jsMax, jsMin, hqa, hab'], hab, JSRat.leB_refl b⟩
    · have haq : JSRat.leB a q = true := by
        rcases JSRat.leB_total q a with h | h
        · exact absurd h hqa
        · exact h
      by_cases hqb : JSRat.leB q b = true
      · exact ⟨q, by simp [jsMax, jsMin, hqa, hqb], haq, hqb⟩
      · exact ⟨b, by simp [jsMax, jsMin, hqa, hqb], hab, JSRat.leB_refl b⟩

/-- C1 witness: `sampler-set name=temp 1.1` on the `[0, 2]`-bounded range
parameter stores `"1.1"`, fires a bubbling `input` event, and the clamped
value lies within the bounds. -/
theorem sampler_set_range_clamped_witness :
    (samplerSet demoState (.str "temp") (.str "1.1") =
      ⟨.ok "",
        { (enumerateSamplerParameters demoState).2 with
            controls := setControlValue demoState.controls tempParam.control
              (jsStr (jsMin (jsMax (.fin ⟨11, 10⟩) tempParam.min) tempParam.max)) },
        [⟨"input", true, tempParam.control⟩]⟩)
    ∧ ∀ a b : JSRat, tempParam.min = .fin a → tempParam.max = .fin b →
        JSRat.leB a b = true →
        ∃ r : JSRat, jsMin (jsMax (.fin ⟨11, 10⟩) tempParam.min) tempParam.max = .fin r
          ∧ JSRat.leB a r = true ∧ JSRat.leB r b = true :=
  sampler_set_range_clamped demoState "temp" "1.1" tempParam ⟨11, 10⟩
    (by decide) (by decide) (by decide) (by decide)

/-- C1 counterexample: on a number-type parameter whose min/max attributes
are absent (so both bounds parse to NaN), setting the finite value `1.5`
succeeds but stores the string `"NaN"` — NaN-propagating clamping — so the
stored value is not the parsed number clamped into `[min, max]` and lies
within no bounds. -/
theorem C1_counterexample :
    parseFloat "1.5" = .fin ⟨15, 10⟩
    ∧ ((enumerateSamplerParameters unboundedState).1.map SamplerParameter.min) = [.nan]
    ∧ (samplerSet unboundedState (.str "typical_p") (.str "1.5")).result = .ok ""
    ∧ ((samplerSet unboundedState (.str "typical_p") (.str "1.5")).state.controls.map
        Control.value) = ["NaN"]
    ∧ parseFloat "NaN" = .nan := by decide

/-- C4 (amended): on a range/number-type parameter, a NON-EMPTY value
string that parses to NaN or a non-finite number fails with InvalidValue,
leaves every control unchanged, and dispatches no event.  (The empty value
string also parses to NaN but is caught earlier by the value-required
InvalidArgument check; see the counterexample.) -/
theorem sampler_set_nonfinite_rejected (s : DomState) (nm0 v : String)
    (p : SamplerParameter)
    (hnm : nm0 ≠ "") (hv : v ≠ "")
    (hfind : lookupParameter (enumerateSamplerParameters s).1 (normalizeName nm0) = some p)
    (htype : p.type ≠ "checkbox")
    (hfin : (parseFloat v).isFinite = false) :
    samplerSet s (.str nm0) (.str v) =
      ⟨.error (.InvalidValue "Value must be convertible to a finite number."),
        (enumerateSamplerParameters s).2, []⟩
    ∧ (samplerSet s (.str nm0) (.str v)).state.controls = s.controls := by
  have hfalsy : JSArg.falsy (JSArg.str nm0) = false := by
    simp [JSArg.falsy, hnm]
  have hvf : JSArg.falsy (JSArg.str v) = false := by
    simp [JSArg.falsy, hv]
  constructor
  · simp [samplerSet, hfalsy, hfind, hvf, htype, hfin]
  · simp [samplerSet, hfalsy, hfind, hvf, htype, hfin, enumerate_controls_unchanged]

/-- C4 witness: `sampler-set name=temp abc` fails with InvalidValue and
mutates no control. -/
theorem sampler_set_nonfinite_rejected_witness :
    (samplerSet demoState (.str "temp") (.str "abc") =
      ⟨.error (.InvalidValue "Value must be convertible to a finite number."),
        (enumerateSamplerParameters demoState).2, []⟩)
    ∧ (samplerSet demoState (.str "temp") (.str "abc")).state.controls =
        demoState.controls :=
  sampler_set_nonfinite_rejected demoState "temp" "abc" tempParam
    (by decide) (by decide) (by decide) (by decide) (by decide)

/-- C4 counterexample: the empty string is a value string that parses to
NaN, yet on the range parameter `temp` the command fails with the
value-required InvalidArgument, not with InvalidValue. -/
theorem C4_counterexample :
    parseFloat "" = .nan
    ∧ lookupParameter (enumerateSamplerParameters demoState).1 (normalizeName "temp") =
        some tempParam
    ∧ (samplerSet demoState (.str "temp") (.str "")).result =
        .error (.InvalidArgument "Value is required.")
    ∧ ∀ m, (samplerSet demoState (.str "temp") (.str "")).result ≠
        .error (.InvalidValue m) := by
  refine ⟨by decide, by decide, by decide, ?_⟩
  intro m h
  rw [(by decide : (samplerSet demoState (.str "temp") (.str "")).result =
    .error (.InvalidArgument "Value is required."))] at h
  simp at h

/-- C5 (amended): on a checkbox-type parameter every NON-EMPTY string
value succeeds: the checked state becomes `isTrueBoolean value` (true
exactly on the recognized truthy vocabulary, false on every other string),
an input event fires, and no numeric coercion is attempted.  (The empty
value string instead fails the value-required InvalidArgument check; see
the counterexample.) -/
theorem sampler_set_checkbox_total (s : DomState) (nm0 v : String)
    (p : SamplerParameter)
    (hnm : nm0 ≠ "") (hv : v ≠ "")
    (hfind : lookupParameter (enumerateSamplerParameters s).1 (normalizeName nm0) = some p)
    (htype : p.type = "checkbox") :
    samplerSet s (.str nm0) (.str v) =
      ⟨.ok "",
        { (enumerateSamplerParameters s).2 with
            controls := setControlChecked s.controls p.control (isTrueBoolean v) },
        [⟨"input", true, p.control⟩]⟩ := by
  have hfalsy : JSArg.falsy (JSArg.str nm0) = false := by
    simp [JSArg.falsy, hnm]
  have hvf : JSArg.falsy (JSArg.str v) = false := by
    simp [JSArg.falsy, hv]
  simp [samplerSet, hfalsy, hfind, hvf, htype, enumerate_controls_unchanged]

/-- C5 witness: `sampler-set` on the checkbox parameter `Streaming` with
the unrecognized token `maybe` succeeds and resolves to unchecked. -/
theorem sampler_set_checkbox_total_witness :
    (samplerSet demoState (.str "streaming") (.str "maybe") =
      ⟨.ok "",
        { (enumerateSamplerParameters demoState).2 with
            controls := setControlChecked demoState.controls streamParam.control
              (isTrueBoolean "maybe") },
        [⟨"input", true, streamParam.control⟩]⟩)
    ∧ isTrueBoolean "maybe" = false :=
  ⟨sampler_set_checkbox_total demoState "streaming" "maybe" streamParam
    (by decide) (by decide) (by decide) (by decide), by decide⟩

/-- C5 counterexample: the empty string is a string value on which the
checkbox set does fail (value-required InvalidArgument) instead of setting
the checked state to false. -/
theorem C5_counterexample :
    lookupParameter (enumerateSamplerParameters demoState).1 (normalizeName "streaming") =
      some streamParam
    ∧ (samplerSet demoState (.str "streaming") (.str "")).result =
        .error (.InvalidArgument "Value is required.")
    ∧ ∀ r, (samplerSet demoState (.str "streaming") (.str "")).result ≠ .ok r := by
  refine ⟨by decide, by decide, ?_⟩
  intro r h
  rw [(by decide : (samplerSet demoState (.str "streaming") (.str "")).result =
    .error (.InvalidArgument "Value is required."))] at h
  simp at h

/-- C9 (amended): an absent or non-string name always fails with
InvalidArgument; and when the name is a non-empty string whose lookup
succeeds, an absent or non-string value fails with InvalidArgument.  (When
the lookup fails, NotFound takes precedence over the value check; see the
counterexample and C10.) -/
theorem sampler_set_invalid_arguments (s : DomState) :
    (∀ v, (samplerSet s .undefined v).result =
      .error (.InvalidArgument "Parameter name is required."))
    ∧ (∀ t v, (samplerSet s (.other t) v).result =
        .error (.InvalidArgument
          (if t then "Parameter name must be a string." else "Parameter name is required.")))
    ∧ (∀ nm0 p, nm0 ≠ "" →
        lookupParameter (enumerateSamplerParameters s).1 (normalizeName nm0) = some p →
        (samplerSet s (.str nm0) .undefined).result =
          .error (.InvalidArgument "Value is required.")
        ∧ ∀ t, (samplerSet s (.str nm0) (.other t)).result =
            .error (.InvalidArgument
              (if t then "Value must be a string." else "Value is required."))) := by
  refine ⟨?_, ?_, ?_⟩
  · intro v
    simp [samplerSet, JSArg.falsy]
  · intro t v
    cases t <;> simp [samplerSet, JSArg.falsy]
  · intro nm0 p hnm hfind
    have hfalsy : JSArg.falsy (JSArg.str nm0) = false := by
      simp [JSArg.falsy, hnm]
    constructor
    · simp [samplerSet, hfalsy, hfind, JSArg.falsy, hnm]
    · intro t
      cases t <;> simp [samplerSet, hfalsy, hfind, JSArg.falsy, hnm]

/-- C9 witness: with a matching name, an absent value fails with the
value-required InvalidArgument. -/
theorem sampler_set_invalid_arguments_witness :
    (samplerSet demoState (.str "temp") .undefined).result =
      .error (.InvalidArgument "Value is required.") :=
  ((sampler_set_invalid_arguments demoState).2.2 "temp" tempParam
    (by decide) (by decide)).1

/-- C9 counterexample: name present and a string but matching no
parameter, value absent: the command fails with NotFound, not with
InvalidArgument, refuting the claim's unconditional disjunction. -/
theorem C9_counterexample :
    (samplerSet demoState (.str "zzz") .undefined).result =
      .error (.NotFound "Parameter \"zzz\" not found.")
    ∧ ∀ m, (samplerSet demoState (.str "zzz") .undefined).result ≠
        .error (.InvalidArgument m) := by
  refine ⟨by decide, ?_⟩
  intro m h
  rw [(by decide : (samplerSet demoState (.str "zzz") .undefined).result =
    .error (.NotFound "Parameter \"zzz\" not found."))] at h
  simp at h

/-- C7 counterexample: JavaScript `replace` with a string pattern removes
the FIRST occurrence anywhere, not an occurrence at a suffix/prefix
position: on the raw identifier `a_counterb` the source's `sanitizeId`
deletes the mid-string `_counter` and returns `ab`, whereas the claimed
suffix/prefix stripping would leave the identifier unchanged. -/
theorem C7_counterexample :
    sanitizeId "a_counterb" = "ab"
    ∧ sanitizeIdSpec "a_counterb" = "a_counterb"
    ∧ sanitizeId "a_counterb" ≠ sanitizeIdSpec "a_counterb" := by decide

/-- C7 (amended): `sanitizeId` removes, for each token in the fixed order
`_counter`, `_textgenerationwebui`, `_openai`, `_novel`, `openai_`,
`oai_`, the first occurrence of that token anywhere in the identifier:
each single removal step splits the list around one occurrence of its
token and deletes exactly it, and a raw identifier containing none of the
tokens is preserved unchanged. -/
theorem sanitizeId_token_removal :
    (∀ id : String, (∀ tok ∈ sanitizeTokens, occursIn tok.toList id.toList = false) →
      sanitizeId id = id)
    ∧ (∀ pat l : List Char, occursIn pat l = true →
      ∃ pre post, l = pre ++ pat ++ post ∧ removeFirst pat l = pre ++ post) := by
  constructor
  · intro id h
    have h1 := h "_counter" (by simp [sanitizeTokens])
    have h2 := h "_textgenerationwebui" (by simp [sanitizeTokens])
    have h3 := h "_openai" (by simp [sanitizeTokens])
    have h4 := h "_novel" (by simp [sanitizeTokens])
    have h5 := h "openai_" (by simp [sanitizeTokens])
    have h6 := h "oai_" (by simp [sanitizeTokens])
    unfold sanitizeId sanitizeTokens
    simp only [List.foldl]
    rw [removeFirst_not_occurs _ _ h1, removeFirst_not_occurs _ _ h2,
      removeFirst_not_occurs _ _ h3, removeFirst_not_occurs _ _ h4,
      removeFirst_not_occurs _ _ h5, removeFirst_not_occurs _ _ h6]
    rfl
  · exact removeFirst_occurs

/-- C7 witness: an identifier free of the sanitization tokens (here
`rep_pen`) is preserved unchanged, and on `a_counterb` the `_counter`
removal step splits the list around its (mid-string) occurrence. -/
theorem sanitizeId_token_removal_witness :
    sanitizeId "rep_pen" = "rep_pen"
    ∧ ∃ pre post, "a_counterb".toList = pre ++ "_counter".toList ++ post
        ∧ removeFirst "_counter".toList "a_counterb".toList = pre ++ post :=
  ⟨sanitizeId_token_removal.1 "rep_pen" (by decide),
   sanitizeId_token_removal.2 "_counter".toList "a_counterb".toList (by decide)⟩

/-- C8 (amended): every sampler parameter returned by the enumerator has a
non-empty id and a non-empty name, and a candidate control whose sanitized
id is empty, whose title is missing, or whose trimmed title text is empty
is discarded.  (The id is NOT forced to lowercase: the sanitized raw
identifier keeps its case; see the counterexample.) -/
theorem enumerate_nonempty_invariant :
    (∀ (s : DomState), ∀ p ∈ (enumerateSamplerParameters s).1, p.id ≠ "" ∧ p.name ≠ "")
    ∧ (∀ (i : Nat) (c : Control),
        (sanitizeId c.id = "" ∨ (Option.map jsTrim c.titleText).getD "" = "") →
        samplerOfControl i c = none) := by
  constructor
  · intro s p hp
    simp only [enumerateSamplerParameters, List.mem_filterMap, List.mem_filter] at hp
    obtain ⟨ic, _, hf⟩ := hp
    by_cases ho : ic.2.inOpenaiSettings
    · simp [ho] at hf
    · simp only [ho, if_false, Bool.false_eq_true] at hf
      cases hT : ic.2.titleText with
      | none => simp [samplerOfControl, hT] at hf
      | some t =>
        by_cases he : sanitizeId ic.2.id = "" ∨ jsTrim t = ""
        · rcases he with he | he <;> simp [samplerOfControl, hT, he] at hf
        · push_neg at he
          simp [samplerOfControl, hT, he.1, he.2] at hf
          subst hf
          exact ⟨he.1, he.2⟩
  · intro i c h
    cases hT : c.titleText with
    | none => simp [samplerOfControl, hT]
    | some t =>
      have h' : sanitizeId c.id = "" ∨ jsTrim t = "" := by
        rcases h with h | h
        · exact Or.inl h
        · rw [hT] at h
          simp at h
          exact Or.inr h
      rcases h' with h' | h' <;> simp [samplerOfControl, hT, h']

/-- C8 witness: the parameter derived from `tempControl` is in the
enumeration and has non-empty id and name, and a control with an empty
title text is discarded. -/
theorem enumerate_nonempty_invariant_witness :
    (tempParam ∈ (enumerateSamplerParameters demoState).1
      ∧ tempParam.id ≠ "" ∧ tempParam.name ≠ "")
    ∧ samplerOfControl 0 { tempControl with titleText := some "  " } = none :=
  ⟨⟨by decide, enumerate_nonempty_invariant.1 demoState tempParam (by decide)⟩,
   enumerate_nonempty_invariant.2 0 { tempControl with titleText := some "  " }
     (by decide)⟩

/-- C8 counterexample: the enumerator never lower-cases ids: a control
with raw identifier `TEMP_openai` yields a parameter whose id is `TEMP`,
which is not in canonical lowercase form. -/
theorem C8_counterexample :
    ((enumerateSamplerParameters upperState).1.map SamplerParameter.id) = ["TEMP"]
    ∧ jsToLower "TEMP" ≠ "TEMP" := by decide

